import Mathlib

/-!
HayBoxFGC: the Pico configuration glue (`src/config/pico/config.cpp`)

A shallow embedding of `config.cpp`: the `button_mappings` table, the `pinout`,
`setup()`, `loop()` and `loop1()`.

* Heap objects created with `new` live in a list; a pointer is an index into it.
* Calls that leave `config.cpp` (Pico SDK, backends, mode selection) are recorded, in
  program order, in a trace. What such a call returns or changes is taken as a
  parameter (`Boot`, `Externals`).
* `nullptr` is `none`; reading through a null or out-of-range pointer gives `none`.
-/

namespace HayBoxFGC

/-! ## Input state and the GPIO button table -/

/-- The members of `InputState` that `config.cpp` names (`&InputState::l`, ...). -/
inductive InputField
  | l | left | down | right | mod_x | mod_y | nunchuk_c | select | start | home | w
  | c_left | c_up | c_down | a | c_right
  | b | x | z | up
  | r | y | lightshield | midshield
  deriving DecidableEq, Repr

/-- An `InputState` restricted to the boolean members named in `config.cpp`. -/
abbrev InputState := InputField → Bool

/-- A `GpioButtonMapping`: a pointer to a member of `InputState` and a GPIO pin. -/
structure GpioButtonMapping where
  button : InputField
  pin : Nat
  deriving DecidableEq, Repr

/-- The table `button_mappings[]`, lines 36-63, in source order. -/
def button_mappings : List GpioButtonMapping :=
  [ ⟨InputField.l, 5⟩,
    ⟨InputField.left, 4⟩,
    ⟨InputField.down, 3⟩,
    ⟨InputField.right, 2⟩,
    ⟨InputField.mod_x, 6⟩,
    ⟨InputField.mod_y, 7⟩,
    ⟨InputField.nunchuk_c, 8⟩,
    ⟨InputField.select, 10⟩,
    ⟨InputField.start, 0⟩,
    ⟨InputField.home, 11⟩,
    ⟨InputField.w, 1⟩,
    ⟨InputField.c_left, 13⟩,
    ⟨InputField.c_up, 12⟩,
    ⟨InputField.c_down, 15⟩,
    ⟨InputField.a, 14⟩,
    ⟨InputField.c_right, 16⟩,
    ⟨InputField.b, 26⟩,
    ⟨InputField.x, 21⟩,
    ⟨InputField.z, 19⟩,
    ⟨InputField.up, 17⟩,
    ⟨InputField.r, 27⟩,
    ⟨InputField.y, 22⟩,
    ⟨InputField.lightshield, 20⟩,
    ⟨InputField.midshield, 18⟩ ]

/-- The count `sizeof(button_mappings) / sizeof(GpioButtonMapping)`. -/
def button_count : Nat := button_mappings.length

/-- The members of `InputState` the GPIO input source writes: those in the table. -/
def gpioFields : List InputField := button_mappings.map GpioButtonMapping.button

/-- Modelled from the spec: the write set of `NunchukInput::UpdateInputs`
(`input/NunchukInput.hpp`, not part of `config.cpp`), which section 5 calls "the fields
sourced from the auxiliary device". Of the `InputState` members `config.cpp` names, that
is the Nunchuk's C button, `nunchuk_c`. -/
def nunchukSourced (f : InputField) : Bool :=
  match f with
  | InputField.nunchuk_c => true
  | _ => false

/-- The `Pinout` record, members as in the designated initialiser of `pinout`. -/
structure Pinout where
  joybus_data : Int
  mux : Int
  nunchuk_detect : Int
  nunchuk_sda : Int
  nunchuk_scl : Int
  rumble : Int
  rumbleBrake : Int
  deriving DecidableEq, Repr

/-- The constant `pinout`, lines 66-72. -/
def pinout : Pinout :=
  { joybus_data := 28,
    mux := -1,
    nunchuk_detect := -1,
    nunchuk_sda := -1,
    nunchuk_scl := -1,
    rumble := 23,
    rumbleBrake := 29 }

/-! ## Game modes and backends -/

/-- The SOCD policies `config.cpp` names (`socd::SOCD_...`). -/
inductive SocdType
  | SOCD_NEUTRAL | SOCD_2IP | SOCD_2IP_NO_REAC
  deriving DecidableEq, Repr

/-- The option record of `Melee20Button`, `{ .crouch_walk_os = ... }`. -/
structure Melee20ButtonOptions where
  crouch_walk_os : Bool
  deriving DecidableEq, Repr

/-- The game modes `setup()` constructs, with their constructor arguments. -/
inductive GameMode
  | WingmanFgcMode (horizontal vertical : SocdType)
  | Melee20Button (horizontal vertical : SocdType) (options : Melee20ButtonOptions)
  | Smash64 (horizontal vertical : SocdType)
  deriving DecidableEq, Repr

/-- The result of `detect_console`. -/
inductive ConnectedConsole
  | NONE | GAMECUBE | N64
  deriving DecidableEq, Repr

/-- The concrete backend classes `setup()` instantiates. -/
inductive BackendKind
  | NintendoSwitchBackend | DInputBackend | XInputBackend | B0XXInputViewer
  | GamecubeBackend | N64Backend
  deriving DecidableEq, Repr

/-- An input source object; `setup()` creates one, the `GpioButtonInput`. -/
inductive InputSource
  | GpioButtonInput (mappings : List GpioButtonMapping) (count : Nat)
  deriving DecidableEq, Repr

/-- A backend object on the heap: its class, the arguments its constructor was given,
and the game mode slot that `SetGameMode` fills (`none` until then). -/
structure CommunicationBackend where
  kind : BackendKind
  input_sources : List InputSource
  input_source_count : Nat
  pins : List Int
  gamemode : Option GameMode
  deriving DecidableEq, Repr

/-- A keyboard mode object; `config.cpp` only tests the pointer and calls `SendReport`. -/
structure KeyboardMode where
  id : Nat
  deriving DecidableEq, Repr

/-- What code outside `config.cpp` may change while the firmware runs: the backend
objects and the global `current_kb_mode`. -/
structure Memory where
  objects : List CommunicationBackend
  current_kb_mode : Option KeyboardMode
  deriving DecidableEq, Repr

/-- The globals of `config.cpp` together with the heap. `backends` and `backend_count`
are assigned in `setup()` only. -/
structure State where
  mem : Memory
  backends : Option (List Nat)
  backend_count : Nat
  deriving DecidableEq, Repr

/-- The globals before `setup()`: `backends = nullptr`, `current_kb_mode = nullptr`. -/
def State.initial : State :=
  { mem := { objects := [], current_kb_mode := none },
    backends := none,
    backend_count := 0 }

/-- The expression `new T(...)`: the object is appended, its index is the pointer. -/
def alloc (objects : List CommunicationBackend) (o : CommunicationBackend) :
    List CommunicationBackend × Nat :=
  (objects ++ [o], objects.length)

/-- The call `p->SetGameMode(mode)`: fills the game mode slot of object `p`. -/
def SetGameMode : List CommunicationBackend → Nat → GameMode → List CommunicationBackend
  | [], _, _ => []
  | o :: os, 0, g => { o with gamemode := some g } :: os
  | o :: os, p + 1, g => o :: SetGameMode os p g

/-- The objects an array of pointers refers to; `none` if a pointer dangles. -/
def deref (objects : List CommunicationBackend) : List Nat → Option (List CommunicationBackend)
  | [] => some []
  | p :: ps =>
    match objects.get? p, deref objects ps with
    | some o, some os => some (o :: os)
    | _, _ => none

/-- The registered backends of a state, in array order. -/
def State.registered (s : State) : Option (List CommunicationBackend) :=
  match s.backends with
  | none => none
  | some arr => deref s.mem.objects arr

/-- The classes of the registered backends, in array order. -/
def State.kinds (s : State) : Option (List BackendKind) :=
  (s.registered).map (fun os => os.map CommunicationBackend.kind)

/-- The game mode installed on `backends[0]`. -/
def State.primaryGameMode (s : State) : Option GameMode :=
  match s.registered with
  | some (o :: _) => o.gamemode
  | _ => none

/-! ## `setup()` -/

/-- Direction argument of `gpio_set_dir`. -/
inductive GpioDir
  | GPIO_OUT
  deriving DecidableEq, Repr

/-- Function argument of `gpio_set_function`. -/
inductive GpioFunction
  | GPIO_FUNC_PWM
  deriving DecidableEq, Repr

/-- Channel argument of `pwm_set_chan_level`. -/
inductive PwmChan
  | PWM_CHAN_B
  deriving DecidableEq, Repr

/-- The calls `setup()` makes, with their arguments. -/
inductive Action
  | new_GpioButtonInput (mappings : List GpioButtonMapping) (count : Nat)
  | UpdateInputs (source : InputSource)
  | reset_usb_boot (pin_mask interface_mask : Nat)
  | gpio_init (pin : Int)
  | gpio_set_dir (pin : Int) (dir : GpioDir)
  | gpio_put (pin : Int) (value : Bool)
  | gpio_set_function (pin : Int) (fn : GpioFunction)
  | pwm_gpio_to_slice_num (pin : Int)
  | pwm_set_wrap (slice : Nat) (wrap : Nat)
  | pwm_set_chan_level (slice : Nat) (chan : PwmChan) (level : Nat)
  | pwm_set_enabled (slice : Nat) (enabled : Bool)
  | detect_console (pin : Int)
  | NintendoSwitchBackend_RegisterDescriptor
  | TUGamepad_registerDescriptor
  | TUKeyboard_registerDescriptor
  | new_backend (kind : BackendKind) (address : Nat)
  | SetGameMode (backend : Nat) (mode : GameMode)
  deriving DecidableEq, Repr

/-- What the board and the hardware give `setup()`: the board constant
`PICO_DEFAULT_LED_PIN`, the SDK map `pwm_gpio_to_slice_num`, the snapshot that
`gpio_input->UpdateInputs(button_holds)` leaves in `button_holds`, and the result of
`detect_console`. -/
structure Boot where
  led_pin : Int
  slice_num : Int → Nat
  button_holds : InputState
  console : ConnectedConsole

/-- One run of `setup()`: the calls made, and the state at return. `final = none` means
`setup()` did not return (`reset_usb_boot` never returns, it reboots the chip), or that
it read an uninitialised pointer. -/
structure Run where
  trace : List Action
  final : Option State
  deriving DecidableEq, Repr

/-- Lines 86-104: LED on, rumble and brake pins to PWM. -/
def ledAndRumble (env : Boot) : List Action :=
  let rumbleSlice_num := env.slice_num pinout.rumble
  let brakeSlice_num := env.slice_num pinout.rumbleBrake
  [ Action.gpio_init env.led_pin,
    Action.gpio_set_dir env.led_pin GpioDir.GPIO_OUT,
    Action.gpio_put env.led_pin true,
    Action.gpio_init pinout.rumble,
    Action.gpio_init pinout.rumbleBrake,
    Action.gpio_set_dir pinout.rumble GpioDir.GPIO_OUT,
    Action.gpio_set_dir pinout.rumbleBrake GpioDir.GPIO_OUT,
    Action.gpio_set_function pinout.rumble GpioFunction.GPIO_FUNC_PWM,
    Action.gpio_set_function pinout.rumbleBrake GpioFunction.GPIO_FUNC_PWM,
    Action.pwm_gpio_to_slice_num pinout.rumble,
    Action.pwm_gpio_to_slice_num pinout.rumbleBrake,
    Action.pwm_set_wrap rumbleSlice_num 255,
    Action.pwm_set_wrap brakeSlice_num 255,
    Action.pwm_set_chan_level rumbleSlice_num PwmChan.PWM_CHAN_B 0,
    Action.pwm_set_chan_level brakeSlice_num PwmChan.PWM_CHAN_B 255,
    Action.pwm_set_enabled rumbleSlice_num true,
    Action.pwm_set_enabled brakeSlice_num true ]

/-- The function `setup()`, lines 74-188. -/
def setup (env : Boot) : Run :=
  let gpio_input := InputSource.GpioButtonInput button_mappings button_count
  let t0 := [Action.new_GpioButtonInput button_mappings button_count,
             Action.UpdateInputs gpio_input]
  let button_holds := env.button_holds
  if button_holds InputField.start then
    { trace := t0 ++ [Action.reset_usb_boot 0 0], final := none }
  else
    let input_sources := [gpio_input]
    let input_source_count := input_sources.length
    let t1 := t0 ++ ledAndRumble env ++ [Action.detect_console pinout.joybus_data]
    let console := env.console
    let s0 := State.initial
    if console = ConnectedConsole.NONE then
      if button_holds InputField.x then
        let backend_count := 1
        let (objs1, primary_backend) := alloc s0.mem.objects
          ⟨BackendKind.NintendoSwitchBackend, input_sources, input_source_count, [], none⟩
        let backends := [primary_backend]
        let mode := GameMode.WingmanFgcMode SocdType.SOCD_NEUTRAL SocdType.SOCD_NEUTRAL
        let objs2 := SetGameMode objs1 primary_backend mode
        { trace := t1 ++ [Action.NintendoSwitchBackend_RegisterDescriptor,
                          Action.new_backend BackendKind.NintendoSwitchBackend primary_backend,
                          Action.SetGameMode primary_backend mode],
          final := some { mem := { s0.mem with objects := objs2 },
                          backends := some backends,
                          backend_count := backend_count } }
      else if button_holds InputField.z then
        let backend_count := 2
        let (objs1, primary_backend) := alloc s0.mem.objects
          ⟨BackendKind.DInputBackend, input_sources, input_source_count, [], none⟩
        let (objs2, viewer) := alloc objs1
          ⟨BackendKind.B0XXInputViewer, input_sources, input_source_count, [], none⟩
        let backends := [primary_backend, viewer]
        { trace := t1 ++ [Action.TUGamepad_registerDescriptor,
                          Action.TUKeyboard_registerDescriptor,
                          Action.new_backend BackendKind.DInputBackend primary_backend,
                          Action.new_backend BackendKind.B0XXInputViewer viewer],
          final := some { mem := { s0.mem with objects := objs2 },
                          backends := some backends,
                          backend_count := backend_count } }
      else
        let backend_count := 2
        let (objs1, primary_backend) := alloc s0.mem.objects
          ⟨BackendKind.XInputBackend, input_sources, input_source_count, [], none⟩
        let (objs2, viewer) := alloc objs1
          ⟨BackendKind.B0XXInputViewer, input_sources, input_source_count, [], none⟩
        let backends := [primary_backend, viewer]
        let mode := GameMode.Melee20Button SocdType.SOCD_NEUTRAL SocdType.SOCD_2IP_NO_REAC
          { crouch_walk_os := true }
        let objs3 := SetGameMode objs2 primary_backend mode
        { trace := t1 ++ [Action.new_backend BackendKind.XInputBackend primary_backend,
                          Action.new_backend BackendKind.B0XXInputViewer viewer,
                          Action.SetGameMode primary_backend mode],
          final := some { mem := { s0.mem with objects := objs3 },
                          backends := some backends,
                          backend_count := backend_count } }
    else
      -- `primary_backend` is declared without initialiser: `none` until a branch assigns it.
      let (objs, primary?, t2) :=
        if console = ConnectedConsole.GAMECUBE then
          let (objs1, p) := alloc s0.mem.objects
            ⟨BackendKind.GamecubeBackend, input_sources, input_source_count,
             [pinout.joybus_data, pinout.rumble, pinout.rumbleBrake], none⟩
          let mode := GameMode.Melee20Button SocdType.SOCD_NEUTRAL SocdType.SOCD_2IP_NO_REAC
            { crouch_walk_os := true }
          (SetGameMode objs1 p mode, some p,
           [Action.new_backend BackendKind.GamecubeBackend p, Action.SetGameMode p mode])
        else if console = ConnectedConsole.N64 then
          let (objs1, p) := alloc s0.mem.objects
            ⟨BackendKind.N64Backend, input_sources, input_source_count,
             [pinout.joybus_data], none⟩
          let mode := GameMode.Smash64 SocdType.SOCD_NEUTRAL SocdType.SOCD_NEUTRAL
          (SetGameMode objs1 p mode, some p,
           [Action.new_backend BackendKind.N64Backend p, Action.SetGameMode p mode])
        else
          (s0.mem.objects, none, [])
      let backend_count := 1
      match primary? with
      | none => { trace := t1 ++ t2, final := none }
      | some primary_backend =>
        { trace := t1 ++ t2,
          final := some { mem := { s0.mem with objects := objs },
                          backends := some [primary_backend],
                          backend_count := backend_count } }

/-- Whether an action is a `SetGameMode` call. -/
def Action.isSetGameMode : Action → Bool
  | Action.SetGameMode _ _ => true
  | _ => false

/-! ## `loop()` and `loop1()` -/

/-- A reference to one of the two state records a backend holds. -/
inductive StateRef
  | inputs (backend : Nat)
  | outputs (backend : Nat)
  deriving DecidableEq, Repr

/-- Modelled from the spec: `CommunicationBackend::GetInputs` (declared in
`core/CommunicationBackend.hpp`, not part of `config.cpp`); section 4.3 gives it as
`get_current_inputs() -> &InputSnapshot`, a reference to that backend's live Input
Snapshot. -/
def GetInputs (backend : Nat) : StateRef := StateRef.inputs backend

/-- The calls `loop()` and `loop1()` make, with receiver and arguments. -/
inductive Call
  | select_mode (backend : Nat)
  | SendReport (backend : Nat)
  | KeyboardMode_SendReport (mode : KeyboardMode) (arg : StateRef)
  | NunchukInput_UpdateInputs (arg : StateRef)
  | busy_wait_us (us : Nat)
  deriving DecidableEq, Repr

/-- The effect on memory of the three routines `loop()` calls; their code is outside
`config.cpp`, so any effect is allowed. -/
structure Externals where
  select_mode : Nat → Memory → Memory
  SendReport : Nat → Memory → Memory
  KeyboardMode_SendReport : KeyboardMode → StateRef → Memory → Memory

/-- The loop `for (size_t i = 0; i < backend_count; i++) backends[i]->SendReport();`
from index `i`, with `remaining = backend_count - i` iterations to go. -/
def sendReports (ext : Externals) (arr : List Nat) :
    Nat → Nat → Memory → Option (Memory × List Call)
  | 0, _, m => some (m, [])
  | remaining + 1, i, m =>
    match arr.get? i with
    | none => none
    | some p =>
      match sendReports ext arr remaining (i + 1) (ext.SendReport p m) with
      | none => none
      | some (m', t) => some (m', Call.SendReport p :: t)

/-- The function `loop()`, lines 190-200: the state after the cycle and the calls made. -/
def loop (ext : Externals) (s : State) : Option (State × List Call) :=
  match s.backends with
  | none => none
  | some arr =>
    match arr.get? 0 with
    | none => none
    | some b0 =>
      let m1 := ext.select_mode b0 s.mem
      match sendReports ext arr s.backend_count 0 m1 with
      | none => none
      | some (m2, t) =>
        match m2.current_kb_mode with
        | some kb =>
          some ({ s with mem := ext.KeyboardMode_SendReport kb (GetInputs b0) m2 },
                Call.select_mode b0 :: t ++ [Call.KeyboardMode_SendReport kb (GetInputs b0)])
        | none => some ({ s with mem := m2 }, Call.select_mode b0 :: t)

/-- The function `loop1()`, lines 214-219: the calls made on the second core. -/
def loop1 (s : State) : Option (List Call) :=
  match s.backends with
  | none => some []
  | some arr =>
    match arr.get? 0 with
    | none => none
    | some b0 => some [Call.NunchukInput_UpdateInputs (GetInputs b0), Call.busy_wait_us 50]

/-- The states the firmware can be in once `setup()` has returned: the state at return,
any state after a further `loop()` cycle, and any state that differs from one of those in
memory only (other code, such as the second core, writing to the objects). -/
inductive Reachable (ext : Externals) : State → Prop
  | boot (env : Boot) (s : State) : (setup env).final = some s → Reachable ext s
  | cycle (s s' : State) (t : List Call) :
      Reachable ext s → loop ext s = some (s', t) → Reachable ext s'
  | write (s : State) (m : Memory) : Reachable ext s → Reachable ext { s with mem := m }

/-- The memory at the test `current_kb_mode != nullptr` of `loop()`: after `select_mode`
and after every `SendReport`. -/
def memAtKeyboardTest (ext : Externals) (arr : List Nat) (b0 : Nat) (m : Memory) : Memory :=
  arr.foldl (fun acc p => ext.SendReport p acc) (ext.select_mode b0 m)

/-- The keyboard part of the cycle's calls. -/
def keyboardCalls (kb : Option KeyboardMode) (b0 : Nat) : List Call :=
  match kb with
  | some k => [Call.KeyboardMode_SendReport k (GetInputs b0)]
  | none => []

/-! ## Concrete boots and externals used as examples -/

/-- A board: LED on pin 25, PWM slice `(gpio / 2) mod 8`. -/
def bootWith (console : ConnectedConsole) (holds : InputState) : Boot :=
  { led_pin := 25,
    slice_num := fun gpio => (gpio.toNat / 2) % 8,
    button_holds := holds,
    console := console }

/-- No button held. -/
def noHold : InputState := fun _ => false

/-- Only the button `f` held. -/
def holdOnly (f : InputField) : InputState := fun g => decide (g = f)

/-- Externals whose `select_mode` installs keyboard mode number 7. -/
def keyboardExternals : Externals :=
  { select_mode := fun _ m => { m with current_kb_mode := some ⟨7⟩ },
    SendReport := fun _ m => m,
    KeyboardMode_SendReport := fun _ _ m => m }


/-- The state `setup()` returns on the default path: no console, nothing held. -/
def xinputState : State :=
  { mem :=
      { objects :=
          [ { kind := BackendKind.XInputBackend,
              input_sources := [InputSource.GpioButtonInput button_mappings button_count],
              input_source_count := 1,
              pins := [],
              gamemode := some (GameMode.Melee20Button SocdType.SOCD_NEUTRAL
                SocdType.SOCD_2IP_NO_REAC { crouch_walk_os := true }) },
            { kind := BackendKind.B0XXInputViewer,
              input_sources := [InputSource.GpioButtonInput button_mappings button_count],
              input_source_count := 1,
              pins := [],
              gamemode := none } ],
        current_kb_mode := none },
    backends := some [0, 1],
    backend_count := 2 }

/-! ## Shared lemmas -/

/-- At return from `setup()` the array holds one or two fresh, distinct pointers and
`backend_count` is its length. -/
theorem setup_final_backends (env : Boot) (s : State) (h : (setup env).final = some s) :
    (s.backends = some [0] ∧ s.backend_count = 1) ∨
    (s.backends = some [0, 1] ∧ s.backend_count = 2) := by
  unfold setup at h
  cases hs : env.button_holds InputField.start <;> cases hc : env.console <;>
    cases hx : env.button_holds InputField.x <;> cases hz : env.button_holds InputField.z <;>
    simp only [hs, hc, hx, hz, alloc, State.initial, Bool.false_eq_true, if_true, if_false,
      reduceCtorEq] at h <;>
    injection h with h <;> subst h <;>
    first | exact Or.inl ⟨rfl, rfl⟩ | exact Or.inr ⟨rfl, rfl⟩

/-- The `for` loop of `loop()` visits the array from `i` to its end when `backend_count`
is the length of the array. -/
theorem sendReports_eq (ext : Externals) (arr : List Nat) :
    ∀ (r i : Nat) (m : Memory), i + r = arr.length →
      sendReports ext arr r i m =
        some ((arr.drop i).foldl (fun acc p => ext.SendReport p acc) m,
              (arr.drop i).map Call.SendReport)
  | 0, i, m, h => by
    have hd : arr.drop i = [] := List.drop_eq_nil_of_le (by omega)
    simp [sendReports, hd]
  | r + 1, i, m, h => by
    have hi : i < arr.length := by omega
    have hd : arr.drop i = arr[i] :: arr.drop (i + 1) := List.drop_eq_getElem_cons hi
    have ih := sendReports_eq ext arr r (i + 1) (ext.SendReport arr[i] m) (by omega)
    have hg : arr.get? i = some arr[i] := by
      rw [List.get?_eq_getElem?]; exact List.getElem?_eq_getElem hi
    rw [hd]
    simp only [sendReports, hg, ih, List.foldl_cons, List.map_cons]

/-- One cycle of `loop()` on a state whose array has `backend_count` entries, the first
being `b0`. -/
theorem loop_eq (ext : Externals) (s : State) (arr : List Nat) (b0 : Nat)
    (hb : s.backends = some arr) (hl : arr.length = s.backend_count)
    (h0 : arr.head? = some b0) :
    ∃ s', loop ext s = some (s',
      Call.select_mode b0 :: arr.map Call.SendReport ++
        keyboardCalls (memAtKeyboardTest ext arr b0 s.mem).current_kb_mode b0) := by
  have hg : arr.get? 0 = some b0 := by
    cases arr with
    | nil => simp at h0
    | cons a as => simpa using h0
  have hsr := sendReports_eq ext arr s.backend_count 0 (ext.select_mode b0 s.mem) (by omega)
  simp only [List.drop_zero] at hsr
  unfold loop
  simp only [hb, hg, hsr, memAtKeyboardTest, keyboardCalls]
  cases hk : (List.foldl (fun acc p => ext.SendReport p acc) (ext.select_mode b0 s.mem)
      arr).current_kb_mode <;> simp

/-- The function `loop()` assigns neither `backends` nor `backend_count`. -/
theorem loop_frame (ext : Externals) (s s' : State) (t : List Call)
    (h : loop ext s = some (s', t)) :
    s'.backends = s.backends ∧ s'.backend_count = s.backend_count := by
  unfold loop at h
  split at h
  · simp at h
  · split at h
    · simp at h
    · dsimp only at h
      split at h
      · simp at h
      · split at h <;> simp at h <;> obtain ⟨h1, _⟩ := h <;> subst h1 <;> simp

/-- In every reachable state `backends` is a non-empty array of `backend_count` distinct
pointers. -/
theorem reachable_backends (ext : Externals) (s : State) (h : Reachable ext s) :
    ∃ arr b0, s.backends = some arr ∧ arr.length = s.backend_count ∧
      arr.head? = some b0 ∧ arr.Nodup := by
  induction h with
  | boot env s hs =>
    rcases setup_final_backends env s hs with ⟨hb, hn⟩ | ⟨hb, hn⟩
    · exact ⟨[0], 0, hb, by simp [hn], rfl, by simp⟩
    · exact ⟨[0, 1], 0, hb, by simp [hn], rfl, by simp⟩
  | cycle s s' t _ hl ih =>
    obtain ⟨arr, b0, hb, hn, h0, hd⟩ := ih
    obtain ⟨fb, fc⟩ := loop_frame ext s s' t hl
    exact ⟨arr, b0, by rw [fb, hb], by rw [fc, hn], h0, hd⟩
  | write s m _ ih =>
    obtain ⟨arr, b0, hb, hn, h0, hd⟩ := ih
    exact ⟨arr, b0, hb, hn, h0, hd⟩

/-- The default boot (no console, nothing held) returns `xinputState`. -/
theorem setup_default : (setup (bootWith ConnectedConsole.NONE noHold)).final = some xinputState :=
  rfl

/-- How often `setup()` calls `SetGameMode` on each path on which it returns: once, except
on the DInput path (no console, X not held, Z held), where it never does. -/
theorem setup_SetGameMode_count (env : Boot) (s : State) (h : (setup env).final = some s) :
    (setup env).trace.countP Action.isSetGameMode =
      if env.console = ConnectedConsole.NONE ∧ env.button_holds InputField.x = false ∧
          env.button_holds InputField.z = true then 0 else 1 := by
  unfold setup at h ⊢
  cases hs : env.button_holds InputField.start <;> cases hc : env.console <;>
    cases hx : env.button_holds InputField.x <;> cases hz : env.button_holds InputField.z <;>
    simp only [hs, hc, hx, hz, alloc, State.initial, Bool.false_eq_true, if_true, if_false,
      reduceCtorEq] at h ⊢ <;>
    simp [ledAndRumble, Action.isSetGameMode, List.countP_cons]

/-! ## The claims -/

/-- C1: in every state reached after `setup()`, with `backend_count = n`, one execution of
`loop()` returns and its calls are exactly: `select_mode` on `backends[0]`; then
`SendReport` once on each `backends[i]`, `i = 0..n-1`, in increasing index order (the
entries are pairwise distinct objects); then the keyboard mode's `SendReport` once, with
argument `backends[0]->GetInputs()`, if `current_kb_mode` is non-null at that test, and
nothing if it is null. -/
theorem loop_call_sequence (ext : Externals) (s : State) (h : Reachable ext s) :
    ∃ arr b0 s', s.backends = some arr ∧ arr.length = s.backend_count ∧ arr.Nodup ∧
      arr.head? = some b0 ∧
      loop ext s = some (s',
        Call.select_mode b0 :: arr.map Call.SendReport ++
          keyboardCalls (memAtKeyboardTest ext arr b0 s.mem).current_kb_mode b0) := by
  obtain ⟨arr, b0, hb, hn, h0, hd⟩ := reachable_backends ext s h
  obtain ⟨s', hl⟩ := loop_eq ext s arr b0 hb hn h0
  exact ⟨arr, b0, s', hb, hn, hd, h0, hl⟩

/-- Witness for C1: the state after the default boot, with a mode selector that installs a
keyboard mode. -/
theorem loop_call_sequence_witness :
    Reachable keyboardExternals xinputState ∧
    ∃ arr b0 s', xinputState.backends = some arr ∧ arr.length = xinputState.backend_count ∧
      arr.Nodup ∧ arr.head? = some b0 ∧
      loop keyboardExternals xinputState = some (s',
        Call.select_mode b0 :: arr.map Call.SendReport ++
          keyboardCalls
            (memAtKeyboardTest keyboardExternals arr b0 xinputState.mem).current_kb_mode b0) :=
  ⟨Reachable.boot (bootWith ConnectedConsole.NONE noHold) xinputState setup_default,
   loop_call_sequence keyboardExternals xinputState
     (Reachable.boot (bootWith ConnectedConsole.NONE noHold) xinputState setup_default)⟩

/-- C2, as stated, fails: after the default boot, in a cycle in which the mode selector has
installed a keyboard mode, the keyboard mode's `SendReport` is handed the primary backend's
Input Snapshot (`backends[0]->GetInputs()`), and no call is handed an Output State. -/
theorem keyboard_not_given_output_state :
    (setup (bootWith ConnectedConsole.NONE noHold)).final = some xinputState ∧
    ∃ s' t, loop keyboardExternals xinputState = some (s', t) ∧
      Call.KeyboardMode_SendReport ⟨7⟩ (StateRef.inputs 0) ∈ t ∧
      ¬ ∃ k b, Call.KeyboardMode_SendReport k (StateRef.outputs b) ∈ t := by
  refine ⟨rfl, _, [Call.select_mode 0, Call.SendReport 0, Call.SendReport 1,
    Call.KeyboardMode_SendReport ⟨7⟩ (StateRef.inputs 0)], rfl, by simp, ?_⟩
  rintro ⟨k, b, hk⟩
  simp at hk

/-- C2, amended: in every `loop()` cycle, from a state reached after `setup()`, in which a
keyboard mode is present at the test, the cycle's last call is the keyboard mode's
`SendReport`, and the value handed to it is `backends[0]->GetInputs()`, the primary
backend's live Input Snapshot. -/
theorem keyboard_receives_primary_inputs (ext : Externals) (s : State) (arr : List Nat)
    (b0 : Nat) (k : KeyboardMode) (h : Reachable ext s) (hb : s.backends = some arr)
    (h0 : arr.head? = some b0)
    (hk : (memAtKeyboardTest ext arr b0 s.mem).current_kb_mode = some k) :
    ∃ s' t, loop ext s = some (s', t) ∧
      t.getLast? = some (Call.KeyboardMode_SendReport k (StateRef.inputs b0)) ∧
      ∀ k' r, Call.KeyboardMode_SendReport k' r ∈ t → r = StateRef.inputs b0 := by
  obtain ⟨arr', b0', hb', hn, h0', _⟩ := reachable_backends ext s h
  have ha : arr' = arr := by rw [hb] at hb'; injection hb' with e; exact e.symm
  subst ha
  obtain ⟨s', hl⟩ := loop_eq ext s arr' b0 hb hn h0
  refine ⟨s', _, hl, ?_, ?_⟩
  · rw [hk]
    exact List.getLast?_concat (Call.select_mode b0 :: arr'.map Call.SendReport)
  · intro k' r hm
    simp [hk, keyboardCalls, GetInputs] at hm
    exact hm.2

/-- Witness for C2, amended: the default boot with a selector installing keyboard mode 7. -/
theorem keyboard_receives_primary_inputs_witness :
    ∃ s' t, loop keyboardExternals xinputState = some (s', t) ∧
      t.getLast? = some (Call.KeyboardMode_SendReport ⟨7⟩ (StateRef.inputs 0)) ∧
      ∀ k' r, Call.KeyboardMode_SendReport k' r ∈ t → r = StateRef.inputs 0 :=
  keyboard_receives_primary_inputs keyboardExternals xinputState [0, 1] 0 ⟨7⟩
    (Reachable.boot (bootWith ConnectedConsole.NONE noHold) xinputState setup_default)
    rfl rfl rfl

/-- C4 at the DInput boot (no console, only Z held): `setup()` returns with
`[DInputBackend, B0XXInputViewer]` registered, has made no `SetGameMode` call, and
`backends[0]` has no game mode. -/
theorem setup_dinput_no_game_mode :
    ((setup (bootWith ConnectedConsole.NONE (holdOnly InputField.z))).final.map State.kinds =
      some (some [BackendKind.DInputBackend, BackendKind.B0XXInputViewer])) ∧
    (setup (bootWith ConnectedConsole.NONE (holdOnly InputField.z))).trace.countP
      Action.isSetGameMode = 0 ∧
    (setup (bootWith ConnectedConsole.NONE (holdOnly InputField.z))).final.map
      State.primaryGameMode = some none :=
  ⟨rfl, rfl, rfl⟩

/-- C5, as stated, fails: the entry `{ &InputState::nunchuk_c, 8 }` of `button_mappings`
targets a nunchuk-sourced field, so `nunchuk_c` is in the GPIO source's write set, while
`loop1()` hands the Nunchuk source the primary backend's Input Snapshot to write. -/
theorem gpio_table_targets_nunchuk_c :
    (⟨InputField.nunchuk_c, 8⟩ : GpioButtonMapping) ∈ button_mappings ∧
    InputField.nunchuk_c ∈ gpioFields ∧ nunchukSourced InputField.nunchuk_c = true ∧
    loop1 xinputState =
      some [Call.NunchukInput_UpdateInputs (StateRef.inputs 0), Call.busy_wait_us 50] :=
  ⟨by decide, by decide, rfl, rfl⟩

/-- C5, amended: the only entry of `button_mappings` that targets a nunchuk-sourced field
is `{ &InputState::nunchuk_c, 8 }`; the other 23 entries target fields the Nunchuk does not
source, and no field is named twice in the table. -/
theorem gpio_table_nunchuk_overlap :
    button_mappings.filter (fun m => nunchukSourced m.button) = [⟨InputField.nunchuk_c, 8⟩] ∧
    (button_mappings.filter (fun m => !nunchukSourced m.button)).length = 23 ∧
    gpioFields.Nodup := by
  refine ⟨rfl, rfl, ?_⟩
  decide

/-- C6: after `setup()` with no console detected and start not held: if X is held the
registered backends are exactly `[NintendoSwitchBackend]`, `backend_count = 1`, game mode
`WingmanFgcMode(SOCD_NEUTRAL, SOCD_NEUTRAL)` (Z held or not); otherwise if Z is held they
are exactly `[DInputBackend, B0XXInputViewer]`, `backend_count = 2`; otherwise exactly
`[XInputBackend, B0XXInputViewer]`, `backend_count = 2`, the primary backend's game mode
`Melee20Button(SOCD_NEUTRAL, SOCD_2IP_NO_REAC, crouch_walk_os = true)`. -/
theorem setup_no_console (env : Boot) (hc : env.console = ConnectedConsole.NONE)
    (hs : env.button_holds InputField.start = false) :
    ∃ s, (setup env).final = some s ∧
      (if env.button_holds InputField.x = true then
         s.kinds = some [BackendKind.NintendoSwitchBackend] ∧ s.backend_count = 1 ∧
         s.primaryGameMode = some
           (GameMode.WingmanFgcMode SocdType.SOCD_NEUTRAL SocdType.SOCD_NEUTRAL)
       else if env.button_holds InputField.z = true then
         s.kinds = some [BackendKind.DInputBackend, BackendKind.B0XXInputViewer] ∧
         s.backend_count = 2
       else
         s.kinds = some [BackendKind.XInputBackend, BackendKind.B0XXInputViewer] ∧
         s.backend_count = 2 ∧
         s.primaryGameMode = some
           (GameMode.Melee20Button SocdType.SOCD_NEUTRAL SocdType.SOCD_2IP_NO_REAC
             { crouch_walk_os := true })) := by
  cases hx : env.button_holds InputField.x <;> cases hz : env.button_holds InputField.z <;>
    simp [setup, hc, hs, hx, hz, alloc, SetGameMode, State.kinds, State.registered, deref,
      State.primaryGameMode, State.initial]

/-- Witness for C6: no console, X and Z both held. -/
theorem setup_no_console_witness :
    ∃ s, (setup (bootWith ConnectedConsole.NONE
        (fun f => decide (f = InputField.x ∨ f = InputField.z)))).final = some s ∧
      s.kinds = some [BackendKind.NintendoSwitchBackend] ∧ s.backend_count = 1 ∧
      s.primaryGameMode = some
        (GameMode.WingmanFgcMode SocdType.SOCD_NEUTRAL SocdType.SOCD_NEUTRAL) := by
  simpa using setup_no_console
    (bootWith ConnectedConsole.NONE (fun f => decide (f = InputField.x ∨ f = InputField.z)))
    rfl rfl

/-- C7: after `setup()` with a console detected (GAMECUBE or N64) and start not held,
whatever X and Z are: `backend_count = 1`, no `B0XXInputViewer` is registered, and the one
registered backend is the `GamecubeBackend` with game mode
`Melee20Button(SOCD_NEUTRAL, SOCD_2IP_NO_REAC, crouch_walk_os = true)` when the console is
GAMECUBE, the `N64Backend` with `Smash64(SOCD_NEUTRAL, SOCD_NEUTRAL)` when it is N64. -/
theorem setup_console (env : Boot)
    (hc : env.console = ConnectedConsole.GAMECUBE ∨ env.console = ConnectedConsole.N64)
    (hs : env.button_holds InputField.start = false) :
    ∃ s ks, (setup env).final = some s ∧ s.backend_count = 1 ∧ s.kinds = some ks ∧
      BackendKind.B0XXInputViewer ∉ ks ∧
      (env.console = ConnectedConsole.GAMECUBE →
        ks = [BackendKind.GamecubeBackend] ∧
        s.primaryGameMode = some
          (GameMode.Melee20Button SocdType.SOCD_NEUTRAL SocdType.SOCD_2IP_NO_REAC
            { crouch_walk_os := true })) ∧
      (env.console = ConnectedConsole.N64 →
        ks = [BackendKind.N64Backend] ∧
        s.primaryGameMode = some
          (GameMode.Smash64 SocdType.SOCD_NEUTRAL SocdType.SOCD_NEUTRAL)) := by
  rcases hc with hc | hc <;>
    simp [setup, hc, hs, alloc, SetGameMode, State.kinds, State.registered, deref,
      State.primaryGameMode, State.initial]

/-- Witness for C7: an N64 console with X and Z both held. -/
theorem setup_console_witness :
    ∃ s ks, (setup (bootWith ConnectedConsole.N64
        (fun f => decide (f = InputField.x ∨ f = InputField.z)))).final = some s ∧
      s.backend_count = 1 ∧ s.kinds = some ks ∧ BackendKind.B0XXInputViewer ∉ ks ∧
      ks = [BackendKind.N64Backend] ∧
      s.primaryGameMode = some
        (GameMode.Smash64 SocdType.SOCD_NEUTRAL SocdType.SOCD_NEUTRAL) := by
  obtain ⟨s, ks, h1, h2, h3, h4, _, h6⟩ := setup_console
    (bootWith ConnectedConsole.N64 (fun f => decide (f = InputField.x ∨ f = InputField.z)))
    (Or.inr rfl) rfl
  exact ⟨s, ks, h1, h2, h3, h4, (h6 rfl).1, (h6 rfl).2⟩

/-- C8: whatever the console and the other buttons, when start is held at boot `setup()`
calls `reset_usb_boot`, and the only calls before it are the creation of the GPIO input
source and one read of it: no LED, rumble or PWM configuration, no console detection, no
backend construction or registration precedes the reset. -/
theorem setup_bootsel_first (env : Boot) (h : env.button_holds InputField.start = true) :
    ∃ post, (setup env).trace =
      [Action.new_GpioButtonInput button_mappings button_count,
       Action.UpdateInputs (InputSource.GpioButtonInput button_mappings button_count),
       Action.reset_usb_boot 0 0] ++ post := by
  refine ⟨[], ?_⟩
  simp [setup, h]

/-- Witness for C8: a GameCube console attached, start and X held. -/
theorem setup_bootsel_first_witness :
    ∃ post, (setup (bootWith ConnectedConsole.GAMECUBE
        (fun f => decide (f = InputField.start ∨ f = InputField.x)))).trace =
      [Action.new_GpioButtonInput button_mappings button_count,
       Action.UpdateInputs (InputSource.GpioButtonInput button_mappings button_count),
       Action.reset_usb_boot 0 0] ++ post :=
  setup_bootsel_first
    (bootWith ConnectedConsole.GAMECUBE
      (fun f => decide (f = InputField.start ∨ f = InputField.x)))
    rfl

end HayBoxFGC
